import Mathlib

/-!
Verification of the trivia question catalog service
(`projects/02_trivia_api/starter/backend/flaskr/__init__.py`).

The Flask route handlers are shallowly embedded as pure Lean functions:
the relational store becomes a `List Question` / `List Category`, SQLAlchemy
query chains become list filters, Python list slicing is modelled with its
negative-index semantics, SQL `ILIKE` patterns are modelled by an explicit
matcher over character lists, and `order_by(func.random()).first()` is
modelled by an arbitrary permutation (`shuffle`) of the eligible list
followed by `head?`.  A bare `except:` block in Python catches
`flask.abort`'s `HTTPException` as well, so an `abort(n)` raised inside a
`try` whose handler calls `abort(422)` yields a 422 response; the
embeddings of the affected endpoints encode that observable result
directly.  The per-row `format()` call only re-serialises a row's fields,
so endpoint results are stated on the underlying rows.
-/

namespace Trivia

/-- A row of the `questions` table (`models.Question`). -/
structure Question where
  id : Nat
  question : String
  answer : String
  category : Nat
  difficulty : Nat
deriving DecidableEq, Repr

/-- A row of the `categories` table (`models.Category`). -/
structure Category where
  id : Nat
  type : String
deriving DecidableEq, Repr

/-! ## Python list slicing

`l[a:b]` with possibly negative bounds: a negative index is offset by the
length and clamped at 0; a nonnegative index is clamped at the length. -/

/-- Resolve one Python slice bound against a list of length `L`. -/
def pySliceIdx (L : Nat) (i : Int) : Nat :=
  if i < 0 then (i + L).toNat else min i.toNat L

/-- Python `xs[a:b]` (step 1). -/
def pySlice (xs : List α) (a b : Int) : List α :=
  (xs.take (pySliceIdx xs.length b)).drop (pySliceIdx xs.length a)

/-- `QUESTIONS_PER_PAGE` from the source. -/
def QUESTIONS_PER_PAGE : Nat := 10

/-- `get_paginated_questions(request, questions, num_of_questions)`:
`start = (page - 1) * num_of_questions`, `end = start + num_of_questions`,
result `questions[start:end]`.  The `page` query argument is passed
explicitly. -/
def get_paginated_questions (page : Int) (num_of_questions : Nat)
    (questions : List α) : List α :=
  pySlice questions ((page - 1) * num_of_questions)
    ((page - 1) * num_of_questions + num_of_questions)

/-! ## Quiz selection (`POST /quizzes`, `play_quiz_question`) -/

/-- Lines 256–262: start from all questions, filter by category when the
requested category id is nonzero, then exclude the previous question ids. -/
def eligibleQuestions (qc : Nat) (prev : List Nat)
    (store : List Question) : List Question :=
  (if qc != 0 then store.filter (fun q => q.category == qc) else store).filter
    (fun q => !(prev.contains q.id))

/-- Line 264: pick the first question of the randomly ordered eligible set. -/
def selectQuizQuestion (shuffle : List Question → List Question)
    (qc : Nat) (prev : List Nat) (store : List Question) : Option Question :=
  (shuffle (eligibleQuestions qc prev store)).head?

/-- JSON body of `POST /quizzes`; `quiz_category` carries the id
(`quiz_category['id']`), `none` models an absent field. -/
structure QuizBody where
  previous_questions : Option (List Nat)
  quiz_category : Option Nat
deriving DecidableEq, Repr

/-- Observable result of the `/quizzes` endpoint. -/
structure QuizResult where
  status : Nat
  question : Option Question
  totalQuestions : Nat
deriving DecidableEq, Repr

/-- Lines 246–283.  The whole handler body runs inside `try:` with a bare
`except: abort(422)`, which also catches the `HTTPException` raised by
`abort(400)` on a missing field and the `AttributeError` raised by
`question.id` when `first()` returned `None`; both paths therefore surface
as a 422 response. -/
def play_quiz_question (shuffle : List Question → List Question)
    (body : QuizBody) (store : List Question) : QuizResult :=
  match body.previous_questions, body.quiz_category with
  | some prev, some qc =>
    match (shuffle (eligibleQuestions qc prev store)).head? with
    | some q => ⟨200, some q, (eligibleQuestions qc prev store).length⟩
    | none => ⟨422, none, 0⟩
  | _, _ => ⟨422, none, 0⟩

/-! ## Questions by category (`GET /categories/<id>/questions`) -/

/-- Observable result of the by-category endpoint. -/
structure CategoryResp where
  status : Nat
  questions : List Question
  total_questions : Nat
  current_category : Option String
deriving DecidableEq, Repr

/-- Lines 211–232: `one_or_none` on the category id; `abort(422)` when the
category does not exist, `abort(404)` when the requested page of its
questions is empty, otherwise the paginated questions. -/
def get_questions_by_category (page : Int) (i : Nat)
    (cats : List Category) (store : List Question) : CategoryResp :=
  match cats.find? (fun c => c.id == i) with
  | none => ⟨422, [], 0, none⟩
  | some cat =>
    let qs := store.filter (fun q => q.category == i)
    let pq := get_paginated_questions page QUESTIONS_PER_PAGE qs
    if pq.length = 0 then ⟨404, [], 0, none⟩
    else ⟨200, pq, qs.length, some cat.type⟩

/-! ## Error handler bodies (lines 291–324) -/

/-- A JSON value as used by the error handlers. -/
inductive JVal where
  | b (x : Bool)
  | n (x : Nat)
  | s (x : String)
deriving DecidableEq, Repr

/-- Field lookup in a JSON object, first binding wins. -/
def lookupKey (k : String) (body : List (String × JVal)) : Option JVal :=
  (body.find? (fun p => p.1 == k)).map (fun p => p.2)

/-- Body of the `bad_request` (400) handler.  The numeric code sits under
the key `' '` (a single space), exactly as in the source. -/
def bad_request_body : List (String × JVal) :=
  [("success", JVal.b false), (" ", JVal.n 400),
   ("message", JVal.s ("Bad request error"))]

/-- Body of the `not_found` (404) handler. -/
def not_found_body : List (String × JVal) :=
  [("success", JVal.b false), ("error", JVal.n 404),
   ("message", JVal.s ("Resource not found"))]

/-- Body of the `internal_server_error` (500) handler. -/
def internal_server_error_body : List (String × JVal) :=
  [("success", JVal.b false), ("error", JVal.n 500),
   ("message", JVal.s ("An error has occured, please try again"))]

/-- Body of the `unprocesable_entity` (422) handler. -/
def unprocesable_entity_body : List (String × JVal) :=
  [("success", JVal.b false), ("error", JVal.n 422),
   ("message", JVal.s ("Unprocessable entity"))]

/-! ## Deleting a question (`DELETE /questions/<id>`) -/

/-- Lines 111–123: `Question.query.get(id)` finds the row by primary key
and `question.delete()` removes it; on a miss `question` is `None`, the
`delete()` attribute access raises, and the bare `except:` answers 404
with the store untouched.  Returns the status and the store after the
request. -/
def delete_question (i : Nat) (store : List Question) :
    Nat × List Question :=
  match store.find? (fun q => q.id == i) with
  | none => (404, store)
  | some _ => (200, store.filter (fun q => q.id != i))

/-! ## Searching questions (`POST /questions/search`)

Line 183–184 filters with `Question.question.ilike(f'%{search_term}%')`.
SQL `ILIKE` compares characters case-insensitively and interprets `%`
(any sequence) and `_` (any single character) in the pattern as
wildcards; `ilikeMatch` implements exactly that semantics. -/

/-- SQL `ILIKE` pattern matching over character lists: `%` matches any
sequence (the rest of the pattern must match some suffix of the text),
`_` any single character, and other characters match case-insensitively. -/
def ilikeMatch : List Char → List Char → Bool
  | [], s => s.isEmpty
  | p :: ps, s =>
    if p = '%' then (s.tails).any (fun t => ilikeMatch ps t)
    else
      match s with
      | [] => false
      | c :: t => (p == '_' || p.toLower == c.toLower) && ilikeMatch ps t

/-- The query of lines 183–184: all questions whose text matches the
`ILIKE` pattern `'%<term>%'`. -/
def searchQuestions (term : String) (store : List Question) :
    List Question :=
  store.filter (fun q =>
    ilikeMatch ('%' :: (term.data ++ ['%'])) q.question.data)

/-- Modelled from the spec's words (for comparison with the source): the
text contains the search term as a case-insensitive substring. -/
def specContainsCI (needle hay : String) : Bool :=
  (List.range (hay.data.length + 1)).any (fun i =>
    ((hay.data.map Char.toLower).drop i).take needle.data.length
      == needle.data.map Char.toLower)

/-- Observable result of the search endpoint. -/
structure SearchResp where
  status : Nat
  questions : List Question
  total_questions : Nat
deriving DecidableEq, Repr

/-- Lines 178–200: 404 when no question matches, otherwise the paginated
matches together with `total_questions = len(Question.query.all())`, the
size of the whole store. -/
def search_questions (page : Int) (term : String)
    (store : List Question) : SearchResp :=
  if (searchQuestions term store).length = 0 then ⟨404, [], 0⟩
  else
    ⟨200, get_paginated_questions page QUESTIONS_PER_PAGE
        (searchQuestions term store), store.length⟩

/-! ## Slice lemmas -/

theorem pySliceIdx_of_nonneg {i : Int} (h : 0 ≤ i) (L : Nat) :
    pySliceIdx L i = min i.toNat L := by
  simp [pySliceIdx, not_lt.mpr h]

theorem pySlice_nonneg (xs : List α) (a : Nat) (k : Nat) :
    pySlice xs (a : Int) ((a : Int) + k) = (xs.drop a).take k := by
  unfold pySlice
  have hb : pySliceIdx xs.length ((a : Int) + k) = min (a + k) xs.length := by
    unfold pySliceIdx
    rw [if_neg (by omega)]
    have h1 : ((a : Int) + k).toNat = a + k := by omega
    rw [h1]
  have ha : pySliceIdx xs.length (a : Int) = min a xs.length := by
    unfold pySliceIdx
    rw [if_neg (by omega)]
    have h2 : ((a : Int)).toNat = a := by omega
    rw [h2]
  rw [hb, ha]
  rcases le_or_lt a xs.length with hle | hlt
  · have : xs.take (min (a + k) xs.length) = xs.take (a + k) := by
      rcases le_or_lt (a + k) xs.length with h | h
      · rw [min_eq_left h]
      · rw [min_eq_right h.le, List.take_length, List.take_of_length_le h.le]
    rw [this, min_eq_left hle, List.drop_take]
    congr 1
    omega
  · have h3 : min (a + k) xs.length = xs.length := min_eq_right (by omega)
    rw [min_eq_right hlt.le, h3, List.take_length, List.drop_length,
      List.drop_of_length_le hlt.le]
    simp

theorem getPaginated_eq (qs : List α) (p : Int) (n : Nat) (hp : 1 ≤ p) :
    get_paginated_questions p n qs = (qs.drop ((p - 1).toNat * n)).take n := by
  have hx : (((p - 1).toNat : Int)) = p - 1 := Int.toNat_of_nonneg (by omega)
  have h1 : ((p - 1) * (n : Int)) = (((p - 1).toNat * n : Nat) : Int) := by
    push_cast [hx]
    ring
  unfold get_paginated_questions
  rw [h1]
  exact pySlice_nonneg qs _ n

/-- C1: for every question list and page `p ≥ 1`, the pagination helper with
page size 10 returns the slice `[(p-1)*10, p*10)` clipped to the list bounds
(`(qs.drop ((p-1)*10)).take 10`), returns `[]` when the offset is at or past
the length, and on a 12-element list page 1 gives the first 10 elements,
page 2 the remaining 2, page 3 the empty list. -/
theorem claim_C1_pagination (qs : List Question) (p : Int) (hp : 1 ≤ p) :
    get_paginated_questions p QUESTIONS_PER_PAGE qs
        = (qs.drop ((p - 1).toNat * 10)).take 10
    ∧ (qs.length ≤ (p - 1).toNat * 10 →
        get_paginated_questions p QUESTIONS_PER_PAGE qs = [])
    ∧ (qs.length = 12 →
        get_paginated_questions 1 QUESTIONS_PER_PAGE qs = qs.take 10
        ∧ get_paginated_questions 2 QUESTIONS_PER_PAGE qs = qs.drop 10
        ∧ get_paginated_questions 3 QUESTIONS_PER_PAGE qs = []) := by
  simp only [QUESTIONS_PER_PAGE]
  have hmain := getPaginated_eq qs p 10 hp
  refine ⟨hmain, ?_, ?_⟩
  · intro hlen
    rw [hmain, List.drop_of_length_le hlen, List.take_nil]
  · intro h12
    have e1 := getPaginated_eq qs 1 10 (by norm_num)
    have e2 := getPaginated_eq qs 2 10 (by norm_num)
    have e3 := getPaginated_eq qs 3 10 (by norm_num)
    norm_num at e1 e2 e3
    refine ⟨e1, ?_, ?_⟩
    · rw [e2, List.take_of_length_le (by simp [h12])]
    · rw [e3]
      rw [show (Int.toNat 2 * 10) = 20 from rfl,
        List.drop_of_length_le (by omega), List.take_nil]

/-- Witness for C1 at `p = 2` on a concrete 12-element list. -/
theorem claim_C1_pagination_witness :
    (1 : Int) ≤ 2
    ∧ get_paginated_questions 2 QUESTIONS_PER_PAGE
        ((List.range 12).map (fun i => (⟨i, "q", "a", 1, 1⟩ : Question)))
      = (((List.range 12).map
            (fun i => (⟨i, "q", "a", 1, 1⟩ : Question))).drop 10).take 10 := by
  refine ⟨by norm_num, ?_⟩
  have h := claim_C1_pagination
    ((List.range 12).map (fun i => (⟨i, "q", "a", 1, 1⟩ : Question))) 2
    (by norm_num)
  simpa using h.1

/-- C10: with page number 0 (below the spec's `pageNumber ≥ 1` precondition)
the Python slice becomes `qs[-10:0]`, which is always the empty list — not
the first page and not an error. -/
theorem claim_C10_page_zero (qs : List Question) :
    get_paginated_questions 0 QUESTIONS_PER_PAGE qs = [] := by
  have hb : pySliceIdx qs.length ((0 - 1) * (QUESTIONS_PER_PAGE : Int)
      + QUESTIONS_PER_PAGE) = 0 := by
    simp [pySliceIdx, QUESTIONS_PER_PAGE]
  unfold get_paginated_questions pySlice
  rw [hb]
  simp

/-! ## Quiz theorems -/

theorem mem_eligible {qc : Nat} {prev : List Nat} {store : List Question}
    {q : Question} (h : q ∈ eligibleQuestions qc prev store) :
    q ∈ store ∧ (qc ≠ 0 → q.category = qc) ∧ q.id ∉ prev := by
  unfold eligibleQuestions at h
  rw [List.mem_filter] at h
  obtain ⟨hbase, hprev⟩ := h
  have hid : q.id ∉ prev := by simpa using hprev
  by_cases hqc : qc = 0
  · subst hqc
    simp at hbase
    exact ⟨hbase, fun hc => absurd rfl hc, hid⟩
  · rw [if_pos (by simpa using hqc), List.mem_filter] at hbase
    exact ⟨hbase.1, fun _ => by simpa using hbase.2, hid⟩

/-- C2: whenever the quiz selector returns a question, that question is in
the store, matches the requested category (unless the category id is 0,
meaning any), and its id is not among the previous questions; and when the
eligible set is exactly one question, that question is returned for every
possible random ordering (i.e. with probability 1). -/
theorem claim_C2_quiz_selector (shuffle : List Question → List Question)
    (hs : ∀ l, (shuffle l).Perm l) (qc : Nat) (prev : List Nat)
    (store : List Question) (q : Question)
    (hq : selectQuizQuestion shuffle qc prev store = some q) :
    q ∈ store ∧ (qc ≠ 0 → q.category = qc) ∧ q.id ∉ prev
    ∧ ∀ q0, eligibleQuestions qc prev store = [q0] → q = q0 := by
  have hmem : q ∈ eligibleQuestions qc prev store := by
    unfold selectQuizQuestion at hq
    have h1 : q ∈ shuffle (eligibleQuestions qc prev store) := by
      rcases hsh : shuffle (eligibleQuestions qc prev store) with _ | ⟨a, t⟩
      · rw [hsh] at hq; exact absurd hq (by simp)
      · rw [hsh] at hq
        simp at hq
        rw [hq]
        exact List.mem_cons_self q t
    exact ((hs _).mem_iff).mp h1
  obtain ⟨h1, h2, h3⟩ := mem_eligible hmem
  refine ⟨h1, h2, h3, fun q0 he => ?_⟩
  unfold selectQuizQuestion at hq
  rw [he, List.perm_singleton.mp (hs [q0])] at hq
  simp at hq
  exact hq.symm

/-- Witness for C2: category 1 holds questions with ids 1, 2, 3, previous
questions are [1, 2]; the selector returns question 3 under the identity
ordering, and it is the unique possible answer. -/
theorem claim_C2_quiz_selector_witness :
    (⟨3, "c", "z", 1, 1⟩ : Question)
        ∈ [(⟨1, "a", "x", 1, 1⟩ : Question), ⟨2, "b", "y", 1, 1⟩,
           ⟨3, "c", "z", 1, 1⟩]
    ∧ ((1 : Nat) ≠ 0 → (⟨3, "c", "z", 1, 1⟩ : Question).category = 1)
    ∧ (⟨3, "c", "z", 1, 1⟩ : Question).id ∉ [1, 2]
    ∧ ∀ q0, eligibleQuestions 1 [1, 2]
          [(⟨1, "a", "x", 1, 1⟩ : Question), ⟨2, "b", "y", 1, 1⟩,
           ⟨3, "c", "z", 1, 1⟩] = [q0]
        → (⟨3, "c", "z", 1, 1⟩ : Question) = q0 :=
  claim_C2_quiz_selector id (fun l => List.Perm.refl l) 1 [1, 2]
    [⟨1, "a", "x", 1, 1⟩, ⟨2, "b", "y", 1, 1⟩, ⟨3, "c", "z", 1, 1⟩]
    ⟨3, "c", "z", 1, 1⟩ (by decide)

/-- C3 (code bug): a `POST /quizzes` body with `previous_questions` or
`quiz_category` missing is answered with status 422, not the intended 400:
the `abort(400)` raises an `HTTPException` that the handler's own bare
`except:` catches and converts to `abort(422)`. -/
theorem claim_C3_missing_field (shuffle : List Question → List Question)
    (body : QuizBody) (store : List Question)
    (h : body.previous_questions = none ∨ body.quiz_category = none) :
    (play_quiz_question shuffle body store).status = 422
    ∧ (play_quiz_question shuffle body store).status ≠ 400 := by
  obtain ⟨bp, bq⟩ := body
  rcases h with h | h <;> simp only at h <;> subst h
  · cases bq <;> simp [play_quiz_question]
  · cases bp <;> simp [play_quiz_question]

/-- Witness for C3 at a body with `previous_questions` absent. -/
theorem claim_C3_missing_field_witness :
    ((none : Option (List Nat)) = none ∨ (some 0 : Option Nat) = none)
    ∧ (play_quiz_question id ⟨none, some 0⟩ []).status = 422
    ∧ (play_quiz_question id ⟨none, some 0⟩ []).status ≠ 400 :=
  ⟨Or.inl rfl, claim_C3_missing_field id ⟨none, some 0⟩ [] (Or.inl rfl)⟩

/-- C8 counterexample: with one question of category 1 and
`previous_questions = [1]`, the eligible set is empty and the endpoint
answers 422 — an unprocessable-entity response, not the internal-error
(HTTP 500) response the claim describes. -/
theorem claim_C8_counterexample :
    (play_quiz_question id ⟨some [1], some 1⟩
        [⟨1, "q", "a", 1, 1⟩]).status = 422
    ∧ (play_quiz_question id ⟨some [1], some 1⟩
        [⟨1, "q", "a", 1, 1⟩]).status ≠ 500 := by
  decide

/-- C8 (amended): for every well-formed `POST /quizzes` body whose eligible
set is empty, the endpoint does not return a clean empty result: the
`AttributeError` from reading `.id` off `None` is caught by the bare
`except:` and surfaces as a 422 error response with no question. -/
theorem claim_C8_empty_eligible (shuffle : List Question → List Question)
    (hs : ∀ l, (shuffle l).Perm l) (qc : Nat) (prev : List Nat)
    (store : List Question)
    (he : eligibleQuestions qc prev store = []) :
    (play_quiz_question shuffle ⟨some prev, some qc⟩ store).status = 422
    ∧ (play_quiz_question shuffle ⟨some prev, some qc⟩ store).question
        = none
    ∧ (play_quiz_question shuffle ⟨some prev, some qc⟩ store).status
        ≠ 200 := by
  have hn : shuffle (eligibleQuestions qc prev store) = [] := by
    have hp := hs (eligibleQuestions qc prev store)
    rw [he] at hp ⊢
    exact hp.eq_nil
  simp [play_quiz_question, hn]

/-- Witness for C8 on a store whose single category-1 question was already
asked. -/
theorem claim_C8_empty_eligible_witness :
    (∀ l : List Question, (id l).Perm l)
    ∧ eligibleQuestions 1 [1] [⟨1, "q", "a", 1, 1⟩] = []
    ∧ (play_quiz_question id ⟨some [1], some 1⟩
        [⟨1, "q", "a", 1, 1⟩]).status = 422
    ∧ (play_quiz_question id ⟨some [1], some 1⟩
        [⟨1, "q", "a", 1, 1⟩]).question = none
    ∧ (play_quiz_question id ⟨some [1], some 1⟩
        [⟨1, "q", "a", 1, 1⟩]).status ≠ 200 :=
  ⟨fun l => List.Perm.refl l, by decide,
    claim_C8_empty_eligible id (fun l => List.Perm.refl l) 1 [1]
      [⟨1, "q", "a", 1, 1⟩] (by decide)⟩

/-! ## By-category, error-handler, delete, and search-total theorems -/

/-- C4 counterexample: with an empty category store, requesting the
questions of category 1 answers 422 (unprocessable entity), not the 404
(NotFound) the claim states. -/
theorem claim_C4_counterexample :
    (get_questions_by_category 1 1 [] []).status = 422
    ∧ (get_questions_by_category 1 1 [] []).status ≠ 404 := by
  decide

/-- C4 (amended): for every category id absent from the category store,
`GET /categories/<id>/questions` fails with 422 (the handler's explicit
`abort(422)`), not with NotFound. -/
theorem claim_C4_unknown_category (page : Int) (i : Nat)
    (cats : List Category) (store : List Question)
    (h : ∀ c ∈ cats, c.id ≠ i) :
    (get_questions_by_category page i cats store).status = 422
    ∧ (get_questions_by_category page i cats store).status ≠ 404 := by
  have hf : cats.find? (fun c => c.id == i) = none :=
    List.find?_eq_none.mpr (fun c hc => by simpa using h c hc)
  simp [get_questions_by_category, hf]

/-- Witness for C4: category 1 is absent from a store holding only
category 2. -/
theorem claim_C4_unknown_category_witness :
    (∀ c ∈ [(⟨2, "Art"⟩ : Category)], c.id ≠ 1)
    ∧ (get_questions_by_category 1 1 [(⟨2, "Art"⟩ : Category)] []).status
        = 422
    ∧ (get_questions_by_category 1 1 [(⟨2, "Art"⟩ : Category)] []).status
        ≠ 404 :=
  ⟨by decide,
    claim_C4_unknown_category 1 1 [(⟨2, "Art"⟩ : Category)] [] (by decide)⟩

/-- C5 (code bug): the 404, 422 and 500 handler bodies each carry
`success: false`, a numeric `error` field equal to the status, and a
message string — but the 400 handler's body keys its numeric code under
`' '` (a single space) instead of `error`, so it has no `error` field. -/
theorem claim_C5_error_body_shape :
    (lookupKey ("success") not_found_body = some (JVal.b false)
      ∧ lookupKey ("error") not_found_body = some (JVal.n 404)
      ∧ lookupKey ("message") not_found_body
          = some (JVal.s ("Resource not found")))
    ∧ (lookupKey ("success") unprocesable_entity_body = some (JVal.b false)
      ∧ lookupKey ("error") unprocesable_entity_body = some (JVal.n 422)
      ∧ lookupKey ("message") unprocesable_entity_body
          = some (JVal.s ("Unprocessable entity")))
    ∧ (lookupKey ("success") internal_server_error_body
          = some (JVal.b false)
      ∧ lookupKey ("error") internal_server_error_body = some (JVal.n 500)
      ∧ lookupKey ("message") internal_server_error_body
          = some (JVal.s ("An error has occured, please try again")))
    ∧ lookupKey ("success") bad_request_body = some (JVal.b false)
    ∧ lookupKey ("message") bad_request_body
        = some (JVal.s ("Bad request error"))
    ∧ lookupKey ("error") bad_request_body = none
    ∧ lookupKey (" ") bad_request_body = some (JVal.n 400) := by
  repeat constructor

/-- C7: deleting an id present in the store succeeds with 200 and the
resulting store holds exactly the other questions; deleting an absent id
answers 404 and leaves the store unchanged. -/
theorem claim_C7_delete (store : List Question) (i : Nat) :
    ((∃ q ∈ store, q.id = i) →
      (delete_question i store).1 = 200
      ∧ ∀ q, q ∈ (delete_question i store).2 ↔ q ∈ store ∧ q.id ≠ i)
    ∧ ((∀ q ∈ store, q.id ≠ i) →
      (delete_question i store).1 = 404
      ∧ (delete_question i store).2 = store) := by
  constructor
  · intro hex
    have hsome : (store.find? (fun q => q.id == i)).isSome := by
      rw [List.find?_isSome]
      obtain ⟨q, hq, hid⟩ := hex
      exact ⟨q, hq, by simpa using hid⟩
    rcases hf : store.find? (fun q => q.id == i) with _ | q0
    · rw [hf] at hsome; exact absurd hsome (by simp)
    · constructor
      · simp [delete_question, hf]
      · intro q
        simp [delete_question, hf, List.mem_filter]
  · intro habs
    have hf : store.find? (fun q => q.id == i) = none :=
      List.find?_eq_none.mpr (fun q hq => by simpa using habs q hq)
    simp [delete_question, hf]

/-- Witness for C7: deleting id 1 from a two-question store, and deleting
the absent id 3 from the same store. -/
theorem claim_C7_delete_witness :
    (delete_question 1
        [(⟨1, "q", "a", 1, 1⟩ : Question), ⟨2, "r", "b", 1, 1⟩]).1 = 200
    ∧ (∀ q, q ∈ (delete_question 1
          [(⟨1, "q", "a", 1, 1⟩ : Question), ⟨2, "r", "b", 1, 1⟩]).2
        ↔ q ∈ [(⟨1, "q", "a", 1, 1⟩ : Question), ⟨2, "r", "b", 1, 1⟩]
          ∧ q.id ≠ 1)
    ∧ (delete_question 3
        [(⟨1, "q", "a", 1, 1⟩ : Question), ⟨2, "r", "b", 1, 1⟩]).1 = 404
    ∧ (delete_question 3
        [(⟨1, "q", "a", 1, 1⟩ : Question), ⟨2, "r", "b", 1, 1⟩]).2
      = [(⟨1, "q", "a", 1, 1⟩ : Question), ⟨2, "r", "b", 1, 1⟩] := by
  have h1 := (claim_C7_delete
    [(⟨1, "q", "a", 1, 1⟩ : Question), ⟨2, "r", "b", 1, 1⟩] 1).1
    (by decide)
  have h2 := (claim_C7_delete
    [(⟨1, "q", "a", 1, 1⟩ : Question), ⟨2, "r", "b", 1, 1⟩] 3).2
    (by decide)
  exact ⟨h1.1, h1.2, h2.1, h2.2⟩

/-- C9: whenever a non-empty search term matches at least one question, the
`total_questions` field of the search response is the size of the whole
store, not the number of matches. -/
theorem claim_C9_search_total (page : Int) (term : String)
    (store : List Question) (_hne : term ≠ "")
    (hm : searchQuestions term store ≠ []) :
    (search_questions page term store).total_questions = store.length := by
  unfold search_questions
  rw [if_neg (by simpa [List.length_eq_zero] using hm)]

/-- Witness for C9: the term matches one question of a two-question store,
and `total_questions` is 2 while only 1 question matches. -/
theorem claim_C9_search_total_witness :
    (("it" : String) ≠ "")
    ∧ searchQuestions ("it") [(⟨1, "title", "a", 1, 1⟩ : Question),
        ⟨2, "other", "b", 1, 1⟩] ≠ []
    ∧ (search_questions 1 ("it") [(⟨1, "title", "a", 1, 1⟩ : Question),
        ⟨2, "other", "b", 1, 1⟩]).total_questions = 2
    ∧ (searchQuestions ("it") [(⟨1, "title", "a", 1, 1⟩ : Question),
        ⟨2, "other", "b", 1, 1⟩]).length = 1 := by
  refine ⟨by decide, by decide, ?_, by decide⟩
  have h := claim_C9_search_total 1 ("it")
    [(⟨1, "title", "a", 1, 1⟩ : Question), ⟨2, "other", "b", 1, 1⟩]
    (by decide) (by decide)
  simpa using h

/-! ## ILIKE characterization (claim C6) -/

theorem ilikeMatch_pct_iff (ps : List Char) (s : List Char) :
    ilikeMatch ('%' :: ps) s = true
      ↔ ∃ a b, s = a ++ b ∧ ilikeMatch ps b = true := by
  show (s.tails.any fun t => ilikeMatch ps t) = true ↔ _
  rw [List.any_eq_true]
  constructor
  · rintro ⟨t, ht, hm⟩
    obtain ⟨a, ha⟩ := (List.mem_tails _ _).mp ht
    exact ⟨a, t, ha.symm, hm⟩
  · rintro ⟨a, b, hab, hm⟩
    exact ⟨b, (List.mem_tails _ _).mpr ⟨a, hab.symm⟩, hm⟩

theorem ilikeMatch_lit_pct (w : List Char)
    (hw : ∀ c ∈ w, c ≠ '%' ∧ c ≠ '_') (s : List Char) :
    ilikeMatch (w ++ ['%']) s = true
      ↔ ∃ u t, s = u ++ t
          ∧ u.map Char.toLower = w.map Char.toLower := by
  induction w generalizing s with
  | nil =>
    simp only [List.nil_append, List.map_nil]
    constructor
    · intro _
      exact ⟨[], s, rfl, rfl⟩
    · intro _
      rw [ilikeMatch_pct_iff]
      exact ⟨s, [], (List.append_nil s).symm, rfl⟩
  | cons p w ih =>
    have hp := hw p (List.mem_cons_self p w)
    have hw0 : ∀ c ∈ w, c ≠ '%' ∧ c ≠ '_' :=
      fun c hc => hw c (List.mem_cons_of_mem p hc)
    cases s with
    | nil =>
      rw [List.cons_append]
      simp only [ilikeMatch, if_neg hp.1]
      constructor
      · intro h
        exact absurd h (by simp)
      · rintro ⟨u, t, hut, hmap⟩
        cases u with
        | nil => simp at hmap
        | cons c0 u0 => simp at hut
    | cons c t =>
      rw [List.cons_append]
      simp only [ilikeMatch, if_neg hp.1]
      rw [Bool.and_eq_true, Bool.or_eq_true]
      constructor
      · rintro ⟨hc, hm⟩
        rcases hc with hc | hc
        · exact absurd (by simpa using hc) hp.2
        · have hcc : p.toLower = c.toLower := by simpa using hc
          obtain ⟨u, t2, hut, hmap⟩ := (ih hw0 t).mp hm
          refine ⟨c :: u, t2, by rw [hut, List.cons_append], ?_⟩
          simp [hmap, hcc]
      · rintro ⟨u, t2, hut, hmap⟩
        cases u with
        | nil => simp at hmap
        | cons c0 u0 =>
          rw [List.cons_append] at hut
          injection hut with h1 h2
          subst h1
          simp only [List.map_cons, List.cons.injEq] at hmap
          refine ⟨Or.inr (by simp [hmap.1]), ?_⟩
          exact (ih hw0 t).mpr ⟨u0, t2, h2, hmap.2⟩

theorem ilikeMatch_full (w : List Char)
    (hw : ∀ c ∈ w, c ≠ '%' ∧ c ≠ '_') (s : List Char) :
    ilikeMatch ('%' :: (w ++ ['%'])) s = true
      ↔ ∃ a u t, s = a ++ (u ++ t)
          ∧ u.map Char.toLower = w.map Char.toLower := by
  rw [ilikeMatch_pct_iff]
  constructor
  · rintro ⟨a, b, hab, hm⟩
    obtain ⟨u, t, hut, hmap⟩ := (ilikeMatch_lit_pct w hw b).mp hm
    exact ⟨a, u, t, by rw [hab, hut], hmap⟩
  · rintro ⟨a, u, t, h, hmap⟩
    exact ⟨a, u ++ t, h, (ilikeMatch_lit_pct w hw (u ++ t)).mpr
      ⟨u, t, rfl, hmap⟩⟩

theorem specContainsCI_iff (needle hay : String) :
    specContainsCI needle hay = true
      ↔ ∃ a u t, hay.data = a ++ (u ++ t)
          ∧ u.map Char.toLower = needle.data.map Char.toLower := by
  unfold specContainsCI
  rw [List.any_eq_true]
  constructor
  · rintro ⟨i, _, hbeq⟩
    have heq :
        ((hay.data.map Char.toLower).drop i).take needle.data.length
          = needle.data.map Char.toLower := by simpa using hbeq
    refine ⟨hay.data.take i, (hay.data.drop i).take needle.data.length,
      (hay.data.drop i).drop needle.data.length, ?_, ?_⟩
    · rw [List.take_append_drop, List.take_append_drop]
    · rw [List.map_take, List.map_drop, heq]
  · rintro ⟨a, u, t, h, hmap⟩
    have hlen : u.length = needle.data.length := by
      have hl := congrArg List.length hmap
      simpa using hl
    refine ⟨a.length, ?_, ?_⟩
    · rw [List.mem_range]
      have : a.length ≤ hay.data.length := by
        rw [h]
        simp
      omega
    · rw [h]
      simp only [List.map_append]
      have hd : ((a.map Char.toLower
            ++ (u.map Char.toLower ++ t.map Char.toLower)).drop a.length)
          = u.map Char.toLower ++ t.map Char.toLower := by
        have hla : a.length = (a.map Char.toLower).length := by simp
        rw [hla, List.drop_left]
      rw [hd]
      have ht : (u.map Char.toLower ++ t.map Char.toLower).take
            needle.data.length = u.map Char.toLower := by
        have h2 : needle.data.length = (u.map Char.toLower).length := by
          simp [hlen]
        rw [h2, List.take_left]
      rw [ht, hmap]
      simp

/-- C6 counterexample: the claim fails as stated — searching for the term
`"_"` returns a question whose text `"x"` does not contain `"_"` as a
case-insensitive substring, because `_` is an SQL `ILIKE` single-character
wildcard. -/
theorem claim_C6_counterexample :
    searchQuestions ("_") [(⟨1, "x", "a", 1, 1⟩ : Question)]
      ≠ [(⟨1, "x", "a", 1, 1⟩ : Question)].filter
          (fun q => specContainsCI ("_") q.question) := by
  decide

/-- C6 (amended): for every search term containing no SQL `LIKE` wildcard
character (`%` or `_`), the search returns exactly the questions whose
text contains the term as a case-insensitive substring, and the empty
term returns every question.  (Terms containing `%` or `_` are instead
interpreted by the source's `ILIKE` pattern with those wildcards.) -/
theorem claim_C6_search (term : String) (store : List Question)
    (hw : ∀ c ∈ term.data, c ≠ '%' ∧ c ≠ '_') :
    searchQuestions term store
        = store.filter (fun q => specContainsCI term q.question)
    ∧ searchQuestions ("") store = store := by
  constructor
  · unfold searchQuestions
    apply List.filter_congr
    intro q _
    rw [Bool.eq_iff_iff, ilikeMatch_full term.data hw q.question.data,
      specContainsCI_iff]
  · have hall : ∀ s : List Char,
        ilikeMatch ('%' :: ((("") : String).data ++ ['%'])) s = true := by
      intro s
      rw [show ((("") : String)).data = [] from rfl, List.nil_append,
        ilikeMatch_pct_iff]
      exact ⟨s, [], (List.append_nil s).symm, rfl⟩
    unfold searchQuestions
    rw [List.filter_congr (fun q _ => hall q.question.data), List.filter_true]

/-- Witness for C6: a wildcard-free term with mixed case matching one of
two questions, and the empty term returning the whole store. -/
theorem claim_C6_search_witness :
    (∀ c ∈ (("Ti") : String).data, c ≠ '%' ∧ c ≠ '_')
    ∧ searchQuestions ("Ti")
        [(⟨1, "title", "a", 1, 1⟩ : Question), ⟨2, "other", "b", 1, 1⟩]
      = [(⟨1, "title", "a", 1, 1⟩ : Question),
         ⟨2, "other", "b", 1, 1⟩].filter
          (fun q => specContainsCI ("Ti") q.question)
    ∧ searchQuestions ("") [(⟨1, "title", "a", 1, 1⟩ : Question)]
      = [(⟨1, "title", "a", 1, 1⟩ : Question)] :=
  ⟨by decide,
    (claim_C6_search ("Ti")
      [⟨1, "title", "a", 1, 1⟩, ⟨2, "other", "b", 1, 1⟩] (by decide)).1,
    (claim_C6_search ("")
      [⟨1, "title", "a", 1, 1⟩] (by decide)).2⟩

end Trivia
